import Mathlib

/-!
Verification of the streaming reconciliation and conversation-routing logic of
the teams-a2a-auth-client-js repository.

The two JavaScript call sites (`src/bots/dialogBot.js` and
`src/dialogs/mainDialog.js`) duplicate the reconciliation logic; they are
embedded here as the two namespaces `A2A.DialogBot` and `A2A.MainDialog`,
each translated from its own file, literal strings included (the two files
differ at the byte level in their string literals: `dialogBot.js` holds real
emoji, `mainDialog.js` holds mojibake of the same emoji).

Asynchrony is made explicit: the input of one reconciliation run is a list of
`StreamItem`s, interleaving agent events with `tick`s of the 2-second typing
interval (`setInterval` at dialogBot.js:140, mainDialog.js:584).  Failures of
`context.updateActivity` are decided by an oracle `updFail : Nat → Bool`
indexed by the running count of update attempts.  The observable output is a
list of `Directive`s: the calls made against the chat surface.
-/

namespace A2A

/-- JavaScript truthiness of an optional string (`undefined`, `null` and the
empty string are falsy). -/
def truthy : Option String → Bool
  | some s => s ≠ ""
  | none => false

/-- JavaScript `s || d` for an optional string `s`. -/
def strOr (s : Option String) (d : String) : String :=
  match s with
  | some v => if v ≠ "" then v else d
  | none => d

/-- JavaScript `String.prototype.trim`, modelled structurally on the
character list of the string. -/
def jsTrim (s : String) : String :=
  ⟨((s.data.dropWhile Char.isWhitespace).reverse.dropWhile Char.isWhitespace).reverse⟩

/-- JavaScript `String.prototype.toLowerCase` (character-wise lowercasing,
which covers the reserved command words). -/
def jsToLower (s : String) : String :=
  ⟨s.data.map Char.toLower⟩

/-- Substring search on character lists: does the needle occur in the
haystack? -/
def charsContain (needle : List Char) : List Char → Bool
  | [] => needle.isEmpty
  | c :: rest => needle.isPrefixOf (c :: rest) || charsContain needle rest

/-- JavaScript `haystack.includes(needle)`. -/
def containsSubstr (haystack needle : String) : Bool :=
  charsContain needle.data haystack.data

/-- A part of an agent message or artifact
(`{kind: "text", text}` or `{kind: "file", filename}`). -/
inductive Part where
  | text (content : String)
  | file (filename : Option String)
deriving DecidableEq, Repr

/-- JavaScript `part.text` (a file part has no `text` property, which is falsy,
i.e. indistinguishable from the empty string in every guard of the source). -/
def Part.textField : Part → String
  | .text c => c
  | .file _ => ""

/-- JavaScript `part.kind === "text" && part.text`
(dialogBot.js:221, mainDialog.js:665). -/
def Part.isContributingText : Part → Bool
  | .text c => c ≠ ""
  | .file _ => false

/-- `event.parts[0]?.text`, with absent list / empty list / file part all
yielding a falsy value, modelled as `""`. -/
def firstPartText : Option (List Part) → String
  | some (p :: _) => p.textField
  | _ => ""

/-- A task status object (`{state, message?}`). -/
structure TaskStatus where
  state : String
  message : Option String
deriving DecidableEq, Repr

/-- An artifact (`{artifactId, name?, parts?}`); `parts` is optional because the
source guards on its presence (`if (event.artifact.parts)`), and an empty
array is truthy in JavaScript, so `some []` and `none` behave differently. -/
structure Artifact where
  artifactId : String
  name : Option String
  parts : Option (List Part)
deriving DecidableEq, Repr

/-- The tagged union of agent stream events, discriminated on `event.kind`
(`"message" | "task" | "status-update" | "artifact-update"`). -/
inductive AgentEvent where
  | message (parts : Option (List Part))
  | task (id : String) (status : TaskStatus) (artifacts : Option (List Artifact))
  | statusUpdate (status : TaskStatus)
  | artifactUpdate (artifact : Artifact)
deriving DecidableEq, Repr

/-- One item of the interleaved execution of a streaming run: either the next
agent event or a firing of the periodic typing interval. -/
inductive StreamItem where
  | ev (e : AgentEvent)
  | tick
deriving DecidableEq, Repr

/-- An observable call against the chat surface.  `create` is the
`sendActivity` whose response is retained as the in-place-editable handle
(`messageActivity`), `update` is `updateActivity` together with whether the
attempt succeeded, `send` is any other `sendActivity` of a text, and `typing`
is a typing indicator. -/
inductive Directive where
  | typing
  | create (text : String)
  | update (text : String) (ok : Bool)
  | send (text : String)
deriving DecidableEq, Repr

def Directive.isTyping : Directive → Bool
  | .typing => true
  | _ => false

def Directive.isCreate : Directive → Bool
  | .create _ => true
  | _ => false

def Directive.isUpdate : Directive → Bool
  | .update _ _ => true
  | _ => false

def Directive.isFailedUpdate : Directive → Bool
  | .update _ ok => !ok
  | _ => false

def Directive.isSend : Directive → Bool
  | .send _ => true
  | _ => false

/-- The shape of a directive, forgetting the rendered text but keeping the
success flag of an update attempt. -/
inductive DKind where
  | typing
  | create
  | update (ok : Bool)
  | send
deriving DecidableEq, Repr

def Directive.dkind : Directive → DKind
  | .typing => .typing
  | .create _ => .create
  | .update _ ok => .update ok
  | .send _ => .send

def countCreate (t : List Directive) : Nat := t.countP (fun d => d.isCreate)
def countUpdate (t : List Directive) : Nat := t.countP (fun d => d.isUpdate)
def countFailedUpdate (t : List Directive) : Nat := t.countP (fun d => d.isFailedUpdate)
def countSend (t : List Directive) : Nat := t.countP (fun d => d.isSend)
def countTyping (t : List Directive) : Nat := t.countP (fun d => d.isTyping)

/-- Whether one stream item is a status-update event carrying the state
`"completed"` (the only state on which the source stops the typing loop
mid-stream and forces an update). -/
def StreamItem.isCompletedStatus : StreamItem → Bool
  | .ev (.statusUpdate s) => s.state == "completed"
  | _ => false

/-- The number of `"completed"` status-update events in an interleaved stream. -/
def countCompletedStatus (items : List StreamItem) : Nat :=
  items.countP (fun i => i.isCompletedStatus)

/-- `currentTask`: the last seen task event, of which only `id` and `status`
are read afterwards (`status` is the mutation target of status updates). -/
structure CurrentTask where
  id : String
  status : TaskStatus
deriving DecidableEq, Repr

/-- The local mutable state of one `handleStreamingResponse` invocation
(dialogBot.js:130-137, mainDialog.js:574-581), plus `updSeq`, the running
count of `updateActivity` attempts used to index the failure oracle. -/
structure RState where
  accumulatedText : String
  currentTask : Option CurrentTask
  receivedEvents : Bool
  lastArtifacts : List Artifact
  messageActivity : Bool
  updateCount : Nat
  isCompleted : Bool
  intervalActive : Bool
  updSeq : Nat
deriving DecidableEq, Repr

/-- The initial reconciliation state. -/
def initState : RState :=
  { accumulatedText := ""
    currentTask := none
    receivedEvents := false
    lastArtifacts := []
    messageActivity := false
    updateCount := 0
    isCompleted := false
    intervalActive := true
    updSeq := 0 }

/-- The result object of the synchronous `sendMessage` call. -/
inductive AgentResult where
  | message (parts : Option (List Part))
  | task (id : String) (status : TaskStatus) (artifacts : Option (List Artifact))
  | other (kind : String)
deriving DecidableEq, Repr

/-- The JSON-RPC response of `sendMessage`: either an error object or a result. -/
inductive A2AResponse where
  | error (message : String)
  | result (r : AgentResult)
deriving DecidableEq, Repr

/-- The per-turn ambient state (`context.turnState`): access token, whether an
A2A client handle is stashed, and the agent server url. -/
structure TurnState where
  accessToken : Option String
  a2aClient : Bool
  a2aServerUrl : Option String
deriving DecidableEq, Repr

/-- The `a2aState` property persisted in conversation state
(mainDialog.js:226-245). -/
structure A2AStoredState where
  accessToken : Option String
  a2aServerUrl : Option String
deriving DecidableEq, Repr

namespace DialogBot

/-- The repeated inline block of dialogBot.js:158-178 and 222-239: append one
text contribution, bump `updateCount`, then create the display message if none
exists, else attempt an in-place update every 5th contribution (failures are
swallowed). -/
def contribute (updFail : Nat → Bool) (st : RState) (txt : String) :
    RState × List Directive :=
  let acc := st.accumulatedText ++ txt
  let n := st.updateCount + 1
  if !st.messageActivity then
    ({ st with accumulatedText := acc, updateCount := n, messageActivity := true },
     [Directive.create ("🤖 " ++ acc)])
  else if n % 5 == 0 then
    ({ st with accumulatedText := acc, updateCount := n, updSeq := st.updSeq + 1 },
     [Directive.update ("🤖 " ++ acc) (!updFail st.updSeq)])
  else
    ({ st with accumulatedText := acc, updateCount := n }, [])

/-- The `for (const part of event.artifact.parts)` loop of dialogBot.js:220-241. -/
def processArtifactParts (updFail : Nat → Bool) (st : RState) :
    List Part → RState × List Directive
  | [] => (st, [])
  | p :: ps =>
    if p.isContributingText then
      let r := contribute updFail st p.textField
      let r2 := processArtifactParts updFail r.1 ps
      (r2.1, r.2 ++ r2.2)
    else
      processArtifactParts updFail st ps

/-- The event dispatch of the `for await` loop body (dialogBot.js:151-245). -/
def stepEvent (updFail : Nat → Bool) (st : RState) (e : AgentEvent) :
    RState × List Directive :=
  let st := { st with receivedEvents := true }
  match e with
  | .message parts =>
    if firstPartText parts ≠ "" then
      contribute updFail st (firstPartText parts)
    else
      (st, [])
  | .task id status artifacts =>
    let st := { st with currentTask := some ⟨id, status⟩ }
    match artifacts with
    | some arts => if arts.length > 0 then ({ st with lastArtifacts := arts }, []) else (st, [])
    | none => (st, [])
  | .statusUpdate status =>
    let st :=
      match st.currentTask with
      | some ct => { st with currentTask := some { ct with status := status } }
      | none => st
    if status.state == "completed" then
      let st := { st with isCompleted := true, intervalActive := false }
      if st.accumulatedText ≠ "" && st.messageActivity then
        ({ st with updSeq := st.updSeq + 1 },
         [Directive.update ("🤖 " ++ st.accumulatedText) (!updFail st.updSeq)])
      else
        (st, [])
    else
      (st, [])
  | .artifactUpdate a =>
    match a.parts with
    | some ps =>
      let r := processArtifactParts updFail st ps
      ({ r.1 with lastArtifacts := r.1.lastArtifacts ++ [a] }, r.2)
    | none => (st, [])

/-- One interleaved item: an agent event, or a firing of the typing interval
(which sends a typing indicator only while the interval is uncleared and
`isCompleted` is false, dialogBot.js:140-148). -/
def step (updFail : Nat → Bool) (st : RState) : StreamItem → RState × List Directive
  | .tick =>
    (st, if st.intervalActive && !st.isCompleted then [Directive.typing] else [])
  | .ev e => stepEvent updFail st e

/-- The whole `for await` loop over the interleaved stream. -/
def runLoop (updFail : Nat → Bool) (st : RState) :
    List StreamItem → RState × List Directive
  | [] => (st, [])
  | item :: rest =>
    let r := step updFail st item
    let r2 := runLoop updFail r.1 rest
    (r2.1, r.2 ++ r2.2)

/-- The state after consuming the interleaved stream, starting from the
initial state. -/
def loopState (updFail : Nat → Bool) (items : List StreamItem) : RState :=
  (runLoop updFail initState items).1

/-- The inline artifact rendering of the finalization (dialogBot.js:282-293):
a name-or-id line per artifact, then one line per part. -/
def renderTaskArtifacts (arts : List Artifact) : List Directive :=
  arts.flatMap (fun a =>
    Directive.send ("📎 " ++ strOr a.name a.artifactId) ::
    (match a.parts with
     | some ps =>
       ps.map (fun p =>
         match p with
         | .text c => Directive.send ("📄 " ++ c)
         | .file fn => Directive.send ("🗂️ File: " ++ strOr fn "unnamed"))
     | none => []))

/-- The post-loop rendering of dialogBot.js:256-302 (the state it receives has
the interval cleared and `isCompleted` set by the `finally` clause). -/
def finalize (updFail : Nat → Bool) (st : RState) : RState × List Directive :=
  if st.accumulatedText ≠ "" then
    if st.messageActivity then
      let ok := !updFail st.updSeq
      ({ st with updSeq := st.updSeq + 1 },
       if ok then
         [Directive.update ("🤖 " ++ st.accumulatedText) true]
       else
         [Directive.update ("🤖 " ++ st.accumulatedText) false,
          Directive.send ("🤖 " ++ st.accumulatedText)])
    else
      (st, [Directive.send ("🤖 " ++ st.accumulatedText)])
  else
    match st.currentTask with
    | some ct =>
      (st,
       Directive.send ("🎯 Task " ++ ct.id ++ ": " ++ ct.status.state) ::
       (if st.lastArtifacts.length > 0 then renderTaskArtifacts st.lastArtifacts else []) ++
       (match ct.status.message with
        | some m => if m ≠ "" then [Directive.send ("ℹ️ " ++ m)] else []
        | none => []))
    | none =>
      if !st.receivedEvents then
        (st, [Directive.send "⚠️ No response received from agent."])
      else
        (st, [])

/-- One full successful reconciliation run: initial typing indicator, the
event loop, the `finally` cleanup, then finalization. -/
def reconcile (updFail : Nat → Bool) (items : List StreamItem) : List Directive :=
  let r := runLoop updFail initState items
  let st := { r.1 with intervalActive := false, isCompleted := true }
  Directive.typing :: r.2 ++ (finalize updFail st).2

/-- The loop state as patched by the `finally` clause (interval cleared,
completion flag set), which the finalization receives. -/
def finalState (updFail : Nat → Bool) (items : List StreamItem) : RState :=
  { (runLoop updFail initState items).1 with
    intervalActive := false, isCompleted := true }

/-- `handleRegularResponse` (dialogBot.js:320-364): typing indicator, one
synchronous send, then render the result; returns the directives and the
message of a thrown error, if any. -/
def handleRegularResponse (resp : A2AResponse) : List Directive × Option String :=
  match resp with
  | .error m => ([Directive.typing], some m)
  | .result r =>
    match r with
    | .message parts =>
      ([Directive.typing,
        Directive.send ("🤖 " ++
          (if firstPartText parts ≠ "" then firstPartText parts else "No text content"))],
       none)
    | .task id status artifacts =>
      ((Directive.typing ::
        Directive.send ("🎯 Task: " ++ id ++ " (" ++ status.state ++ ")") ::
        (match artifacts with
         | some arts => if arts.length > 0 then renderTaskArtifacts arts else []
         | none => []) ++
        (match status.message with
         | some m => if m ≠ "" then [Directive.send ("ℹ️ " ++ m)] else []
         | none => []) ++
        (if status.state ≠ "completed" ∧ status.state ≠ "failed" ∧ status.state ≠ "canceled" then
          [Directive.send ("⏳ Task is " ++ status.state ++
            ". The agent will notify when complete.")]
         else [])),
       none)
    | .other _ => ([Directive.typing], none)

/-- `handleStreamingResponse` with its try/catch (dialogBot.js:121-312).
`streamErr = some e` means the `for await` iteration raised `e` after the
listed items; the catch then invokes the synchronous fallback once with the
same `sendParams` (transport behaviour given by `sendOnce`).  Returns the
directives, the list of messages the fallback was invoked with, and the
message of an error propagating out, if any. -/
def handleStreamingResponse (updFail : Nat → Bool) (msg : String)
    (items : List StreamItem) (streamErr : Option String)
    (sendOnce : String → A2AResponse) :
    List Directive × List String × Option String :=
  let r := runLoop updFail initState items
  match streamErr with
  | none =>
    let st := { r.1 with intervalActive := false, isCompleted := true }
    (Directive.typing :: r.2 ++ (finalize updFail st).2, [], none)
  | some _ =>
    let fb := handleRegularResponse (sendOnce msg)
    (Directive.typing :: r.2 ++ fb.1, [msg], fb.2)

/-- The reserved control words of `handleMessage` (dialogBot.js:49). -/
def dialogCommands : List String := ["login", "logout", "exit"]

/-- The 401 detection of dialogBot.js:64 and 108. -/
def isAuthErrorMsg (m : String) : Bool :=
  containsSubstr m "401" || containsSubstr m "Unauthorized"

/-- The error re-wrapping of `routeToA2AAgent` (dialogBot.js:106-112). -/
def routeToA2AAgentError (e : String) : String :=
  if isAuthErrorMsg e then "401 Unauthorized - Authentication required" else e

/-- The outcome of `handleMessage` for one turn: the turn state after the
handler, whether the dialog flow was run, and the error activity text sent to
the user, if any. -/
structure HandleMessageResult where
  turnState : TurnState
  dialogRun : Bool
  errorActivity : Option String
deriving DecidableEq, Repr

/-- `handleMessage` (dialogBot.js:43-83): route to the agent when the text is
not a reserved command and an authenticated client is stashed; on an auth
error clear the turn-scoped token and client and fall through to the dialog;
on any other error report it and end the turn.  `routeErr` is the error
thrown by `routeToA2AAgent`, if any. -/
def handleMessage (text : String) (ts : TurnState) (routeErr : Option String) :
    HandleMessageResult :=
  let t := jsToLower (jsTrim text)
  let isDialogCommand := dialogCommands.contains t
  if !isDialogCommand && truthy ts.accessToken && ts.a2aClient then
    match routeErr with
    | none => ⟨ts, false, none⟩
    | some e =>
      if isAuthErrorMsg e then
        ⟨{ ts with accessToken := none, a2aClient := false }, true, none⟩
      else
        ⟨ts, false, some ("⚠️ Error communicating with agent: " ++ e)⟩
  else
    ⟨ts, true, none⟩

end DialogBot

namespace MainDialog

/-!
The dialog-embedded duplicate (mainDialog.js:565-819).  Logic identical to
`DialogBot`; the literal strings are those of mainDialog.js, which are
mojibake of the emoji of dialogBot.js (the file stores e.g.
`U+011F U+0178 U+00A4 U+2013` where dialogBot.js stores `U+1F916`), and the
artifact rendering goes through `displayTaskArtifacts`, which bolds the
name line and uses the placeholder "unnamed file".
-/

/-- The repeated inline block of mainDialog.js:602-622 and 666-683. -/
def contribute (updFail : Nat → Bool) (st : RState) (txt : String) :
    RState × List Directive :=
  let acc := st.accumulatedText ++ txt
  let n := st.updateCount + 1
  if !st.messageActivity then
    ({ st with accumulatedText := acc, updateCount := n, messageActivity := true },
     [Directive.create ("ğŸ¤– " ++ acc)])
  else if n % 5 == 0 then
    ({ st with accumulatedText := acc, updateCount := n, updSeq := st.updSeq + 1 },
     [Directive.update ("ğŸ¤– " ++ acc) (!updFail st.updSeq)])
  else
    ({ st with accumulatedText := acc, updateCount := n }, [])

/-- The `for (const part of event.artifact.parts)` loop of mainDialog.js:664-685. -/
def processArtifactParts (updFail : Nat → Bool) (st : RState) :
    List Part → RState × List Directive
  | [] => (st, [])
  | p :: ps =>
    if p.isContributingText then
      let r := contribute updFail st p.textField
      let r2 := processArtifactParts updFail r.1 ps
      (r2.1, r.2 ++ r2.2)
    else
      processArtifactParts updFail st ps

/-- The event dispatch of the `for await` loop body (mainDialog.js:595-689). -/
def stepEvent (updFail : Nat → Bool) (st : RState) (e : AgentEvent) :
    RState × List Directive :=
  let st := { st with receivedEvents := true }
  match e with
  | .message parts =>
    if firstPartText parts ≠ "" then
      contribute updFail st (firstPartText parts)
    else
      (st, [])
  | .task id status artifacts =>
    let st := { st with currentTask := some ⟨id, status⟩ }
    match artifacts with
    | some arts => if arts.length > 0 then ({ st with lastArtifacts := arts }, []) else (st, [])
    | none => (st, [])
  | .statusUpdate status =>
    let st :=
      match st.currentTask with
      | some ct => { st with currentTask := some { ct with status := status } }
      | none => st
    if status.state == "completed" then
      let st := { st with isCompleted := true, intervalActive := false }
      if st.accumulatedText ≠ "" && st.messageActivity then
        ({ st with updSeq := st.updSeq + 1 },
         [Directive.update ("ğŸ¤– " ++ st.accumulatedText)
            (!updFail st.updSeq)])
      else
        (st, [])
    else
      (st, [])
  | .artifactUpdate a =>
    match a.parts with
    | some ps =>
      let r := processArtifactParts updFail st ps
      ({ r.1 with lastArtifacts := r.1.lastArtifacts ++ [a] }, r.2)
    | none => (st, [])

/-- One interleaved item (typing interval: mainDialog.js:584-592). -/
def step (updFail : Nat → Bool) (st : RState) : StreamItem → RState × List Directive
  | .tick =>
    (st, if st.intervalActive && !st.isCompleted then [Directive.typing] else [])
  | .ev e => stepEvent updFail st e

/-- The whole `for await` loop over the interleaved stream. -/
def runLoop (updFail : Nat → Bool) (st : RState) :
    List StreamItem → RState × List Directive
  | [] => (st, [])
  | item :: rest =>
    let r := step updFail st item
    let r2 := runLoop updFail r.1 rest
    (r2.1, r.2 ++ r2.2)

/-- The state after consuming the interleaved stream from the initial state. -/
def loopState (updFail : Nat → Bool) (items : List StreamItem) : RState :=
  (runLoop updFail initState items).1

/-- `displayTaskArtifacts` (mainDialog.js:805-819). -/
def displayTaskArtifacts (arts : List Artifact) : List Directive :=
  arts.flatMap (fun a =>
    Directive.send ("ğŸ“ **" ++ strOr a.name a.artifactId ++ "**") ::
    (match a.parts with
     | some ps =>
       ps.map (fun p =>
         match p with
         | .text c => Directive.send ("ğŸ“„ " ++ c)
         | .file fn =>
           Directive.send ("ğŸ—‚ï¸ File: " ++
             strOr fn "unnamed file"))
     | none => []))

/-- The post-loop rendering of mainDialog.js:700-735. -/
def finalize (updFail : Nat → Bool) (st : RState) : RState × List Directive :=
  if st.accumulatedText ≠ "" then
    if st.messageActivity then
      let ok := !updFail st.updSeq
      ({ st with updSeq := st.updSeq + 1 },
       if ok then
         [Directive.update ("ğŸ¤– " ++ st.accumulatedText) true]
       else
         [Directive.update ("ğŸ¤– " ++ st.accumulatedText) false,
          Directive.send ("ğŸ¤– " ++ st.accumulatedText)])
    else
      (st, [Directive.send ("ğŸ¤– " ++ st.accumulatedText)])
  else
    match st.currentTask with
    | some ct =>
      (st,
       Directive.send ("ğŸ¯ Task " ++ ct.id ++ ": " ++ ct.status.state) ::
       (if st.lastArtifacts.length > 0 then displayTaskArtifacts st.lastArtifacts else []) ++
       (match ct.status.message with
        | some m =>
          if m ≠ "" then [Directive.send ("â„¹ï¸ " ++ m)] else []
        | none => []))
    | none =>
      if !st.receivedEvents then
        (st, [Directive.send "âš ï¸ No response received from agent."])
      else
        (st, [])

/-- One full successful reconciliation run (mainDialog.js:565-737). -/
def reconcile (updFail : Nat → Bool) (items : List StreamItem) : List Directive :=
  let r := runLoop updFail initState items
  let st := { r.1 with intervalActive := false, isCompleted := true }
  Directive.typing :: r.2 ++ (finalize updFail st).2

/-- `handleRegularResponse` (mainDialog.js:753-796). -/
def handleRegularResponse (resp : A2AResponse) : List Directive × Option String :=
  match resp with
  | .error m => ([Directive.typing], some m)
  | .result r =>
    match r with
    | .message parts =>
      ([Directive.typing,
        Directive.send ("ğŸ¤– " ++
          (if firstPartText parts ≠ "" then firstPartText parts else "No text content"))],
       none)
    | .task id status artifacts =>
      ((Directive.typing ::
        Directive.send ("ğŸ¯ Task: " ++ id ++ " - " ++ status.state) ::
        (match artifacts with
         | some arts => if arts.length > 0 then displayTaskArtifacts arts else []
         | none => []) ++
        (match status.message with
         | some m =>
           if m ≠ "" then [Directive.send ("â„¹ï¸ " ++ m)] else []
         | none => []) ++
        (if status.state ≠ "completed" ∧ status.state ≠ "failed" ∧ status.state ≠ "canceled" then
          [Directive.send ("â³ Task is " ++ status.state ++
            ". The agent will notify when complete.")]
         else [])),
       none)
    | .other _ => ([Directive.typing], none)

/-- `handleStreamingResponse` with its try/catch (mainDialog.js:565-745);
modelled exactly like `DialogBot.handleStreamingResponse`. -/
def handleStreamingResponse (updFail : Nat → Bool) (msg : String)
    (items : List StreamItem) (streamErr : Option String)
    (sendOnce : String → A2AResponse) :
    List Directive × List String × Option String :=
  let r := runLoop updFail initState items
  match streamErr with
  | none =>
    let st := { r.1 with intervalActive := false, isCompleted := true }
    (Directive.typing :: r.2 ++ (finalize updFail st).2, [], none)
  | some _ =>
    let fb := handleRegularResponse (sendOnce msg)
    (Directive.typing :: r.2 ++ fb.1, [msg], fb.2)

/-- `persistA2AState` (mainDialog.js:226-245): write the turn-scoped token and
server url to conversation state only when both are truthy, else leave the
stored state untouched. -/
def persistA2AState (ts : TurnState) (stored : A2AStoredState) : A2AStoredState :=
  if truthy ts.accessToken && truthy ts.a2aServerUrl then
    ⟨ts.accessToken, ts.a2aServerUrl⟩
  else
    stored

/-- `restoreA2AState` (mainDialog.js:182-220): when the stored state holds a
truthy token and server url, copy them into the turn state and recreate the
client handle; otherwise leave the turn state untouched. -/
def restoreA2AState (ts : TurnState) (stored : A2AStoredState) : TurnState :=
  if truthy stored.accessToken && truthy stored.a2aServerUrl then
    { ts with accessToken := stored.accessToken
              a2aServerUrl := stored.a2aServerUrl
              a2aClient := true }
  else
    ts

/-- The A2A-state bracket of `MainDialog.run` (mainDialog.js:58-72): restore
from conversation state before the dialog system runs, persist after.  The
dialog steps in between are elided, which is exact for any turn in which the
dialogs acquire no new token (e.g. the turn that merely re-prompts sign-in). -/
def runA2AStateBracket (ts : TurnState) (stored : A2AStoredState) :
    TurnState × A2AStoredState :=
  let restored := restoreA2AState ts stored
  (restored, persistA2AState restored stored)

end MainDialog

end A2A

/-!
## Helper lemmas

Shared invariants of the `DialogBot` reconciler, and the pairing lemmas
relating the two duplicated implementations.
-/

namespace A2A

namespace DialogBot

theorem contribute_fields (updFail : Nat → Bool) (st : RState) (txt : String) :
    (contribute updFail st txt).1.accumulatedText = st.accumulatedText ++ txt ∧
    (contribute updFail st txt).1.updateCount = st.updateCount + 1 ∧
    (contribute updFail st txt).1.messageActivity = true ∧
    (contribute updFail st txt).1.lastArtifacts = st.lastArtifacts ∧
    (contribute updFail st txt).1.currentTask = st.currentTask ∧
    (contribute updFail st txt).1.receivedEvents = st.receivedEvents ∧
    (contribute updFail st txt).1.isCompleted = st.isCompleted ∧
    (contribute updFail st txt).1.intervalActive = st.intervalActive := by
  unfold contribute
  cases hm : st.messageActivity
  · simp
  · simp only [hm, Bool.not_true, Bool.false_eq_true, if_false]
    split <;> simp [hm]

theorem contribute_dirs (updFail : Nat → Bool) (st : RState) (txt : String) :
    countCreate (contribute updFail st txt).2
        = (if st.messageActivity then 0 else 1) ∧
    countSend (contribute updFail st txt).2 = 0 ∧
    countTyping (contribute updFail st txt).2 = 0 := by
  unfold contribute
  cases hm : st.messageActivity
  · simp [countCreate, countSend, countTyping, Directive.isCreate, Directive.isSend,
      Directive.isTyping]
  · simp only [hm, Bool.not_true, Bool.false_eq_true, if_false]
    split <;>
      simp [countCreate, countSend, countTyping, Directive.isCreate, Directive.isSend,
        Directive.isTyping]

theorem contribute_update_bound (updFail : Nat → Bool) (st : RState) (txt : String) :
    countUpdate (contribute updFail st txt).2 + st.updateCount / 5
      ≤ (contribute updFail st txt).1.updateCount / 5 := by
  unfold contribute
  cases hm : st.messageActivity
  · simp only [hm, Bool.not_false, if_true]
    simp [countUpdate, Directive.isUpdate]
    omega
  · simp only [hm, Bool.not_true, Bool.false_eq_true, if_false]
    split
    · rename_i h5
      simp only [beq_iff_eq] at h5
      simp [countUpdate, Directive.isUpdate]
      omega
    · simp [countUpdate, Directive.isUpdate]
      omega

end DialogBot

end A2A

namespace A2A

@[simp] theorem countTyping_append (l1 l2 : List Directive) :
    countTyping (l1 ++ l2) = countTyping l1 + countTyping l2 :=
  List.countP_append _ _ _

@[simp] theorem countSend_append (l1 l2 : List Directive) :
    countSend (l1 ++ l2) = countSend l1 + countSend l2 :=
  List.countP_append _ _ _

@[simp] theorem countCreate_append (l1 l2 : List Directive) :
    countCreate (l1 ++ l2) = countCreate l1 + countCreate l2 :=
  List.countP_append _ _ _

@[simp] theorem countUpdate_append (l1 l2 : List Directive) :
    countUpdate (l1 ++ l2) = countUpdate l1 + countUpdate l2 :=
  List.countP_append _ _ _

namespace DialogBot

theorem processArtifactParts_lastArtifacts (updFail : Nat → Bool) (ps : List Part)
    (st : RState) :
    (processArtifactParts updFail st ps).1.lastArtifacts = st.lastArtifacts := by
  induction ps generalizing st with
  | nil => rfl
  | cons p ps ih =>
    unfold processArtifactParts
    split
    · simp only []
      rw [ih]
      exact (contribute_fields updFail st p.textField).2.2.2.1
    · exact ih st

theorem processArtifactParts_noncontributing (updFail : Nat → Bool) (ps : List Part)
    (st : RState) (h : ∀ q ∈ ps, q.isContributingText = false) :
    processArtifactParts updFail st ps = (st, []) := by
  induction ps with
  | nil => rfl
  | cons p ps ih =>
    unfold processArtifactParts
    rw [if_neg]
    · exact ih (fun q hq => h q (List.mem_cons_of_mem p hq))
    · simp [h p (List.mem_cons_self p ps)]

@[simp] theorem contribute_countTyping (updFail : Nat → Bool) (st : RState) (txt : String) :
    countTyping (contribute updFail st txt).2 = 0 :=
  (contribute_dirs updFail st txt).2.2

@[simp] theorem contribute_countSend (updFail : Nat → Bool) (st : RState) (txt : String) :
    countSend (contribute updFail st txt).2 = 0 :=
  (contribute_dirs updFail st txt).2.1

@[simp] theorem processArtifactParts_countTyping (updFail : Nat → Bool) (ps : List Part)
    (st : RState) :
    countTyping (processArtifactParts updFail st ps).2 = 0 := by
  induction ps generalizing st with
  | nil => rfl
  | cons p ps ih =>
    unfold processArtifactParts
    split
    · simp [ih]
    · exact ih st

@[simp] theorem processArtifactParts_countSend (updFail : Nat → Bool) (ps : List Part)
    (st : RState) :
    countSend (processArtifactParts updFail st ps).2 = 0 := by
  induction ps generalizing st with
  | nil => rfl
  | cons p ps ih =>
    unfold processArtifactParts
    split
    · simp [ih]
    · exact ih st

theorem stepEvent_no_typing (updFail : Nat → Bool) (st : RState) (e : AgentEvent) :
    countTyping (stepEvent updFail st e).2 = 0 := by
  cases e <;> dsimp only [stepEvent]
  case message parts =>
    split
    · simp
    · rfl
  case task id status artifacts =>
    cases artifacts
    · rfl
    · dsimp only; split <;> rfl
  case statusUpdate status =>
    split
    · split <;> rfl
    · rfl
  case artifactUpdate a =>
    cases a.parts
    · rfl
    · simp

theorem stepEvent_no_send (updFail : Nat → Bool) (st : RState) (e : AgentEvent) :
    countSend (stepEvent updFail st e).2 = 0 := by
  cases e <;> dsimp only [stepEvent]
  case message parts =>
    split
    · simp
    · rfl
  case task id status artifacts =>
    cases artifacts
    · rfl
    · dsimp only; split <;> rfl
  case statusUpdate status =>
    split
    · split <;> rfl
    · rfl
  case artifactUpdate a =>
    cases a.parts
    · rfl
    · simp

theorem processArtifactParts_flags (updFail : Nat → Bool) (ps : List Part) (st : RState) :
    (processArtifactParts updFail st ps).1.isCompleted = st.isCompleted ∧
    (processArtifactParts updFail st ps).1.intervalActive = st.intervalActive := by
  induction ps generalizing st with
  | nil => exact ⟨rfl, rfl⟩
  | cons p ps ih =>
    unfold processArtifactParts
    split
    · simp only []
      constructor
      · rw [(ih _).1]
        exact (contribute_fields updFail st p.textField).2.2.2.2.2.2.1
      · rw [(ih _).2]
        exact (contribute_fields updFail st p.textField).2.2.2.2.2.2.2
    · exact ih st

theorem step_flags_preserved (updFail : Nat → Bool) (st : RState) (i : StreamItem)
    (hC : st.isCompleted = true) (hI : st.intervalActive = false) :
    (step updFail st i).1.isCompleted = true ∧
    (step updFail st i).1.intervalActive = false := by
  cases i with
  | tick => exact ⟨hC, hI⟩
  | ev e =>
    show (stepEvent updFail st e).1.isCompleted = true ∧
      (stepEvent updFail st e).1.intervalActive = false
    cases e <;> dsimp only [stepEvent]
    case message parts =>
      split
      · rw [(contribute_fields updFail _ _).2.2.2.2.2.2.1,
          (contribute_fields updFail _ _).2.2.2.2.2.2.2]
        exact ⟨hC, hI⟩
      · exact ⟨hC, hI⟩
    case task id status artifacts =>
      cases artifacts
      · exact ⟨hC, hI⟩
      · dsimp only; split <;> exact ⟨hC, hI⟩
    case statusUpdate status =>
      cases st.currentTask with
      | none =>
        dsimp only
        split
        · split <;> exact ⟨rfl, rfl⟩
        · exact ⟨hC, hI⟩
      | some ct =>
        dsimp only
        split
        · split <;> exact ⟨rfl, rfl⟩
        · exact ⟨hC, hI⟩
    case artifactUpdate a =>
      cases a.parts
      · exact ⟨hC, hI⟩
      · dsimp only
        rw [(processArtifactParts_flags updFail _ _).1,
          (processArtifactParts_flags updFail _ _).2]
        exact ⟨hC, hI⟩

theorem runLoop_no_typing_after_stop (updFail : Nat → Bool) (items : List StreamItem)
    (st : RState) (hC : st.isCompleted = true) (hI : st.intervalActive = false) :
    countTyping (runLoop updFail st items).2 = 0 := by
  induction items generalizing st with
  | nil => rfl
  | cons i rest ih =>
    unfold runLoop
    simp only [countTyping_append]
    have hstep : countTyping (step updFail st i).2 = 0 := by
      cases i with
      | tick =>
        show countTyping (if st.intervalActive && !st.isCompleted then _ else []) = 0
        rw [hC, hI]
        rfl
      | ev e => exact stepEvent_no_typing updFail st e
    rw [hstep, ih _ (step_flags_preserved updFail st i hC hI).1
      (step_flags_preserved updFail st i hC hI).2]

end DialogBot

end A2A

namespace A2A

@[simp] theorem countCreate_nil : countCreate ([] : List Directive) = 0 := rfl

@[simp] theorem countSend_nil : countSend ([] : List Directive) = 0 := rfl

@[simp] theorem countTyping_nil : countTyping ([] : List Directive) = 0 := rfl

@[simp] theorem countUpdate_nil : countUpdate ([] : List Directive) = 0 := rfl

@[simp] theorem countCreate_cons (d : Directive) (t : List Directive) :
    countCreate (d :: t) = countCreate t + (if d.isCreate then 1 else 0) :=
  List.countP_cons _ _ _

@[simp] theorem countSend_cons (d : Directive) (t : List Directive) :
    countSend (d :: t) = countSend t + (if d.isSend then 1 else 0) :=
  List.countP_cons _ _ _

@[simp] theorem countTyping_cons (d : Directive) (t : List Directive) :
    countTyping (d :: t) = countTyping t + (if d.isTyping then 1 else 0) :=
  List.countP_cons _ _ _

@[simp] theorem countUpdate_cons (d : Directive) (t : List Directive) :
    countUpdate (d :: t) = countUpdate t + (if d.isUpdate then 1 else 0) :=
  List.countP_cons _ _ _

namespace DialogBot

/-- Number of creations emitted by one contribution, as a function of whether
a display handle already exists. -/
theorem contribute_countCreate (updFail : Nat → Bool) (st : RState) (txt : String) :
    countCreate (contribute updFail st txt).2
      + (if st.messageActivity then 1 else 0)
      = (if (contribute updFail st txt).1.messageActivity then 1 else 0) := by
  rw [(contribute_fields updFail st txt).2.2.1, (contribute_dirs updFail st txt).1]
  cases hm : st.messageActivity <;> simp

theorem processArtifactParts_countCreate (updFail : Nat → Bool) (ps : List Part)
    (st : RState) :
    countCreate (processArtifactParts updFail st ps).2
      + (if st.messageActivity then 1 else 0)
      = (if (processArtifactParts updFail st ps).1.messageActivity then 1 else 0) := by
  induction ps generalizing st with
  | nil => simp [processArtifactParts]
  | cons p ps ih =>
    unfold processArtifactParts
    split
    · simp only [countCreate_append]
      have h1 := contribute_countCreate updFail st p.textField
      have h2 := ih (contribute updFail st p.textField).1
      omega
    · exact ih st

theorem stepEvent_countCreate (updFail : Nat → Bool) (st : RState) (e : AgentEvent) :
    countCreate (stepEvent updFail st e).2
      + (if st.messageActivity then 1 else 0)
      = (if (stepEvent updFail st e).1.messageActivity then 1 else 0) := by
  cases e <;> dsimp only [stepEvent]
  case message parts =>
    split
    · exact contribute_countCreate updFail _ _
    · simp
  case task id status artifacts =>
    cases artifacts
    · simp
    · dsimp only; split <;> simp
  case statusUpdate status =>
    cases st.currentTask with
    | none =>
      dsimp only
      split
      · split <;> simp [Directive.isCreate]
      · simp
    | some ct =>
      dsimp only
      split
      · split <;> simp [Directive.isCreate]
      · simp
  case artifactUpdate a =>
    cases a.parts
    · simp
    · dsimp only
      exact processArtifactParts_countCreate updFail _ _

theorem step_countCreate (updFail : Nat → Bool) (st : RState) (i : StreamItem) :
    countCreate (step updFail st i).2
      + (if st.messageActivity then 1 else 0)
      = (if (step updFail st i).1.messageActivity then 1 else 0) := by
  cases i with
  | tick =>
    show countCreate (if st.intervalActive && !st.isCompleted then [Directive.typing] else [])
        + (if st.messageActivity = true then 1 else 0)
      = (if st.messageActivity = true then 1 else 0)
    split <;> simp [Directive.isCreate]
  | ev e => exact stepEvent_countCreate updFail st e

theorem runLoop_countCreate (updFail : Nat → Bool) (items : List StreamItem)
    (st : RState) :
    countCreate (runLoop updFail st items).2
      + (if st.messageActivity then 1 else 0)
      = (if (runLoop updFail st items).1.messageActivity then 1 else 0) := by
  induction items generalizing st with
  | nil => simp [runLoop]
  | cons i rest ih =>
    unfold runLoop
    simp only [countCreate_append]
    have h1 := step_countCreate updFail st i
    have h2 := ih (step updFail st i).1
    omega

theorem runLoop_no_send (updFail : Nat → Bool) (items : List StreamItem) (st : RState) :
    countSend (runLoop updFail st items).2 = 0 := by
  induction items generalizing st with
  | nil => rfl
  | cons i rest ih =>
    unfold runLoop
    simp only [countSend_append]
    have hstep : countSend (step updFail st i).2 = 0 := by
      cases i with
      | tick =>
        show countSend (if st.intervalActive && !st.isCompleted then _ else []) = 0
        split <;> simp [Directive.isSend]
      | ev e => exact stepEvent_no_send updFail st e
    rw [hstep, ih]

/-- Non-empty accumulated text implies a display handle was created: the
invariant behind the create-on-first-text rule. -/
theorem stepEvent_text_implies_handle (updFail : Nat → Bool) (st : RState)
    (e : AgentEvent)
    (h : st.accumulatedText ≠ "" → st.messageActivity = true) :
    (stepEvent updFail st e).1.accumulatedText ≠ "" →
      (stepEvent updFail st e).1.messageActivity = true := by
  have hparts : ∀ ps s, (s.accumulatedText ≠ "" → s.messageActivity = true) →
      ((processArtifactParts updFail s ps).1.accumulatedText ≠ "" →
        (processArtifactParts updFail s ps).1.messageActivity = true) := by
    intro ps
    induction ps with
    | nil => intro s hs; exact hs
    | cons p ps ih =>
      intro s hs
      unfold processArtifactParts
      split
      · exact ih _ (fun _ => (contribute_fields updFail s p.textField).2.2.1)
      · exact ih s hs
  cases e <;> dsimp only [stepEvent]
  case message parts =>
    split
    · intro _; exact (contribute_fields updFail _ _).2.2.1
    · exact h
  case task id status artifacts =>
    cases artifacts
    · exact h
    · dsimp only; split <;> exact h
  case statusUpdate status =>
    cases st.currentTask with
    | none =>
      dsimp only
      split
      · split <;> exact h
      · exact h
    | some ct =>
      dsimp only
      split
      · split <;> exact h
      · exact h
  case artifactUpdate a =>
    cases a.parts
    · exact h
    · dsimp only
      exact hparts _ _ h

theorem runLoop_text_implies_handle (updFail : Nat → Bool) (items : List StreamItem)
    (st : RState) (h : st.accumulatedText ≠ "" → st.messageActivity = true) :
    (runLoop updFail st items).1.accumulatedText ≠ "" →
      (runLoop updFail st items).1.messageActivity = true := by
  induction items generalizing st with
  | nil => exact h
  | cons i rest ih =>
    unfold runLoop
    refine ih _ ?_
    cases i with
    | tick => exact h
    | ev e => exact stepEvent_text_implies_handle updFail st e h

end DialogBot

end A2A

namespace A2A

namespace DialogBot

/-- `reconcile` unfolded: initial typing indicator, loop trace, then the
finalization trace computed from the loop state with the interval cleared by
the `finally` clause. -/
theorem reconcile_unfold (updFail : Nat → Bool) (items : List StreamItem) :
    reconcile updFail items
      = Directive.typing :: (runLoop updFail initState items).2
        ++ (finalize updFail (finalState updFail items)).2 := rfl

theorem renderTaskArtifacts_all_send (arts : List Artifact) :
    ∀ d ∈ renderTaskArtifacts arts, d.isSend = true := by
  intro d hd
  unfold renderTaskArtifacts at hd
  simp only [List.mem_flatMap] at hd
  obtain ⟨a, _, hd⟩ := hd
  rcases List.mem_cons.mp hd with hd | hd
  · subst hd; rfl
  · cases hpa : a.parts with
    | none => rw [hpa] at hd; simp at hd
    | some ps =>
      rw [hpa] at hd
      simp only [List.mem_map] at hd
      obtain ⟨p, _, hp⟩ := hd
      cases p <;> (subst hp; rfl)

theorem renderTaskArtifacts_counts (arts : List Artifact) :
    countUpdate (renderTaskArtifacts arts) = 0 ∧
    countCreate (renderTaskArtifacts arts) = 0 ∧
    countTyping (renderTaskArtifacts arts) = 0 := by
  refine ⟨List.countP_eq_zero.mpr ?_, List.countP_eq_zero.mpr ?_,
    List.countP_eq_zero.mpr ?_⟩ <;>
    · intro d hd
      have hs := renderTaskArtifacts_all_send arts d hd
      cases d <;> simp_all [Directive.isSend, Directive.isUpdate, Directive.isCreate,
        Directive.isTyping]

theorem finalize_countUpdate_le_one (updFail : Nat → Bool) (st : RState) :
    countUpdate (finalize updFail st).2 ≤ 1 := by
  unfold finalize
  split
  · split
    · dsimp only
      split <;> simp [Directive.isUpdate]
    · simp [Directive.isUpdate]
  · split
    · rename_i ct heq
      rw [countUpdate_append, countUpdate_cons]
      have h1 : countUpdate (if st.lastArtifacts.length > 0
          then renderTaskArtifacts st.lastArtifacts else []) = 0 := by
        split
        · exact (renderTaskArtifacts_counts st.lastArtifacts).1
        · rfl
      have h3 : countUpdate (match ct.status.message with
          | some m => if m ≠ "" then [Directive.send ("ℹ️ " ++ m)] else []
          | none => []) = 0 := by
        cases ct.status.message with
        | none => rfl
        | some m => dsimp only; split <;> rfl
      rw [h1, h3]
      simp [Directive.isUpdate]
    · split <;> simp [Directive.isUpdate]

theorem finalize_no_typing (updFail : Nat → Bool) (st : RState) :
    countTyping (finalize updFail st).2 = 0 := by
  unfold finalize
  split
  · split
    · dsimp only
      split <;> simp [Directive.isTyping]
    · simp [Directive.isTyping]
  · split
    · rename_i ct heq
      rw [countTyping_append, countTyping_cons]
      have h1 : countTyping (if st.lastArtifacts.length > 0
          then renderTaskArtifacts st.lastArtifacts else []) = 0 := by
        split
        · exact (renderTaskArtifacts_counts st.lastArtifacts).2.2
        · rfl
      have h3 : countTyping (match ct.status.message with
          | some m => if m ≠ "" then [Directive.send ("ℹ️ " ++ m)] else []
          | none => []) = 0 := by
        cases ct.status.message with
        | none => rfl
        | some m => dsimp only; split <;> rfl
      rw [h1, h3]
      simp [Directive.isTyping]
    · split <;> simp [Directive.isTyping]

theorem finalize_counts_of_text (updFail : Nat → Bool) (st : RState)
    (hA : st.accumulatedText ≠ "") (hM : st.messageActivity = true) :
    countCreate (finalize updFail st).2 = 0 ∧
    countSend (finalize updFail st).2 = (if updFail st.updSeq then 1 else 0) := by
  unfold finalize
  rw [if_pos hA, if_pos hM]
  cases hu : updFail st.updSeq <;>
    simp [hu, Directive.isCreate, Directive.isSend]

theorem processArtifactParts_update_bound (updFail : Nat → Bool) (ps : List Part)
    (st : RState) :
    countUpdate (processArtifactParts updFail st ps).2 + st.updateCount / 5
      ≤ (processArtifactParts updFail st ps).1.updateCount / 5 := by
  induction ps generalizing st with
  | nil => simp [processArtifactParts]
  | cons p ps ih =>
    unfold processArtifactParts
    split
    · simp only [countUpdate_append]
      have h1 := contribute_update_bound updFail st p.textField
      have h2 := ih (contribute updFail st p.textField).1
      omega
    · exact ih st

theorem stepEvent_update_bound (updFail : Nat → Bool) (st : RState) (e : AgentEvent) :
    countUpdate (stepEvent updFail st e).2 + st.updateCount / 5
      ≤ (stepEvent updFail st e).1.updateCount / 5
        + (if (StreamItem.ev e).isCompletedStatus then 1 else 0) := by
  cases e <;> dsimp only [stepEvent, StreamItem.isCompletedStatus]
  case message parts =>
    split
    · simp only [Bool.false_eq_true, if_false, Nat.add_zero]
      exact contribute_update_bound updFail _ _
    · simp
  case task id status artifacts =>
    cases artifacts
    · simp
    · dsimp only; split <;> simp
  case statusUpdate status =>
    cases st.currentTask with
    | none =>
      dsimp only
      split
      · split <;> simp [Directive.isUpdate] <;> omega
      · simp
    | some ct =>
      dsimp only
      split
      · split <;> simp [Directive.isUpdate] <;> omega
      · simp
  case artifactUpdate a =>
    cases a.parts
    · simp
    · dsimp only
      simp only [Bool.false_eq_true, if_false, Nat.add_zero]
      exact processArtifactParts_update_bound updFail _ _

theorem step_update_bound (updFail : Nat → Bool) (st : RState) (i : StreamItem) :
    countUpdate (step updFail st i).2 + st.updateCount / 5
      ≤ (step updFail st i).1.updateCount / 5
        + (if i.isCompletedStatus then 1 else 0) := by
  cases i with
  | tick =>
    show countUpdate (if st.intervalActive && !st.isCompleted then [Directive.typing] else [])
        + st.updateCount / 5 ≤ st.updateCount / 5 + _
    split <;> simp [Directive.isUpdate, StreamItem.isCompletedStatus]
  | ev e => exact stepEvent_update_bound updFail st e

theorem runLoop_update_bound (updFail : Nat → Bool) (items : List StreamItem)
    (st : RState) :
    countUpdate (runLoop updFail st items).2 + st.updateCount / 5
      ≤ (runLoop updFail st items).1.updateCount / 5 + countCompletedStatus items := by
  induction items generalizing st with
  | nil => simp [runLoop, countCompletedStatus]
  | cons i rest ih =>
    unfold runLoop
    simp only [countUpdate_append]
    have h1 := step_update_bound updFail st i
    have h2 := ih (step updFail st i).1
    have h3 : countCompletedStatus (i :: rest)
        = countCompletedStatus rest + (if i.isCompletedStatus then 1 else 0) :=
      List.countP_cons _ _ _
    omega

end DialogBot

end A2A


namespace A2A

theorem contribute_pair (updFail : Nat → Bool) (st : RState) (txt : String) :
    (MainDialog.contribute updFail st txt).1 = (DialogBot.contribute updFail st txt).1 ∧
    (MainDialog.contribute updFail st txt).2.map Directive.dkind
      = (DialogBot.contribute updFail st txt).2.map Directive.dkind := by
  unfold MainDialog.contribute DialogBot.contribute
  cases hm : st.messageActivity
  · simp [hm, Directive.dkind]
  · simp only [hm, Bool.not_true, Bool.false_eq_true, if_false]
    split <;> simp [Directive.dkind]

theorem processArtifactParts_pair (updFail : Nat → Bool) (ps : List Part)
    (st : RState) :
    (MainDialog.processArtifactParts updFail st ps).1
      = (DialogBot.processArtifactParts updFail st ps).1 ∧
    (MainDialog.processArtifactParts updFail st ps).2.map Directive.dkind
      = (DialogBot.processArtifactParts updFail st ps).2.map Directive.dkind := by
  induction ps generalizing st with
  | nil => exact ⟨rfl, rfl⟩
  | cons p ps ih =>
    unfold MainDialog.processArtifactParts DialogBot.processArtifactParts
    split
    · dsimp only
      rw [(contribute_pair updFail st p.textField).1]
      refine ⟨(ih _).1, ?_⟩
      rw [List.map_append, List.map_append, (contribute_pair updFail st p.textField).2,
        (ih _).2]
    · exact ih st

theorem stepEvent_pair (updFail : Nat → Bool) (st : RState) (e : AgentEvent) :
    (MainDialog.stepEvent updFail st e).1 = (DialogBot.stepEvent updFail st e).1 ∧
    (MainDialog.stepEvent updFail st e).2.map Directive.dkind
      = (DialogBot.stepEvent updFail st e).2.map Directive.dkind := by
  cases e <;> dsimp only [MainDialog.stepEvent, DialogBot.stepEvent]
  case message parts =>
    by_cases hc : firstPartText parts ≠ ""
    · simp only [if_pos hc]
      exact contribute_pair updFail _ _
    · rw [if_neg hc, if_neg hc]
      exact ⟨rfl, rfl⟩
  case task id status artifacts =>
    cases artifacts
    · exact ⟨rfl, rfl⟩
    · dsimp only
      split <;> exact ⟨rfl, rfl⟩
  case statusUpdate status =>
    cases st.currentTask with
    | none =>
      dsimp only
      split
      · split <;> exact ⟨rfl, rfl⟩
      · exact ⟨rfl, rfl⟩
    | some ct =>
      dsimp only
      split
      · split <;> exact ⟨rfl, rfl⟩
      · exact ⟨rfl, rfl⟩
  case artifactUpdate a =>
    cases hpa : a.parts
    · exact ⟨rfl, rfl⟩
    · dsimp only
      rw [(processArtifactParts_pair updFail _ _).1]
      exact ⟨rfl, (processArtifactParts_pair updFail _ _).2⟩

theorem step_pair (updFail : Nat → Bool) (st : RState) (i : StreamItem) :
    (MainDialog.step updFail st i).1 = (DialogBot.step updFail st i).1 ∧
    (MainDialog.step updFail st i).2.map Directive.dkind
      = (DialogBot.step updFail st i).2.map Directive.dkind := by
  cases i with
  | tick => exact ⟨rfl, rfl⟩
  | ev e => exact stepEvent_pair updFail st e

theorem runLoop_pair (updFail : Nat → Bool) (items : List StreamItem) (st : RState) :
    (MainDialog.runLoop updFail st items).1 = (DialogBot.runLoop updFail st items).1 ∧
    (MainDialog.runLoop updFail st items).2.map Directive.dkind
      = (DialogBot.runLoop updFail st items).2.map Directive.dkind := by
  induction items generalizing st with
  | nil => exact ⟨rfl, rfl⟩
  | cons i rest ih =>
    unfold MainDialog.runLoop DialogBot.runLoop
    dsimp only
    rw [(step_pair updFail st i).1]
    refine ⟨(ih _).1, ?_⟩
    rw [List.map_append, List.map_append, (step_pair updFail st i).2, (ih _).2]

theorem map_dkind_part_render (ps : List Part) (fMD fDB : Part → Directive)
    (h : ∀ p, (fMD p).dkind = (fDB p).dkind) :
    (ps.map fMD).map Directive.dkind = (ps.map fDB).map Directive.dkind := by
  induction ps with
  | nil => rfl
  | cons p ps ih => simp only [List.map_cons, h p, ih]

theorem displayTaskArtifacts_kinds (arts : List Artifact) :
    (MainDialog.displayTaskArtifacts arts).map Directive.dkind
      = (DialogBot.renderTaskArtifacts arts).map Directive.dkind := by
  induction arts with
  | nil => rfl
  | cons a rest ih =>
    unfold MainDialog.displayTaskArtifacts DialogBot.renderTaskArtifacts
    simp only [List.flatMap_cons, List.map_append, List.map_cons, Directive.dkind]
    refine congrArg₂ (· ++ ·) ?_ ?_
    · refine congrArg (DKind.send :: ·) ?_
      cases hpa : a.parts
      · rfl
      · dsimp only
        exact map_dkind_part_render _ _ _ (fun p => by cases p <;> rfl)
    · exact ih

theorem finalize_pair (updFail : Nat → Bool) (st : RState) :
    (MainDialog.finalize updFail st).2.map Directive.dkind
      = (DialogBot.finalize updFail st).2.map Directive.dkind := by
  unfold MainDialog.finalize DialogBot.finalize
  by_cases hA : st.accumulatedText ≠ ""
  · simp only [if_pos hA]
    by_cases hM : st.messageActivity = true
    · simp only [if_pos hM]
      cases hu : updFail st.updSeq <;> simp [Directive.dkind]
    · rw [if_neg hM, if_neg hM]
      simp [Directive.dkind]
  · simp only [if_neg hA]
    cases hct : st.currentTask with
    | none =>
      dsimp only
      split <;> simp [Directive.dkind]
    | some ct =>
      dsimp only
      simp only [List.map_append, List.map_cons, Directive.dkind]
      refine congrArg₂ (· ++ ·) ?_ ?_
      · refine congrArg (DKind.send :: ·) ?_
        split
        · exact displayTaskArtifacts_kinds st.lastArtifacts
        · rfl
      · cases ct.status.message with
        | none => rfl
        | some m =>
          dsimp only
          split <;> rfl

theorem handleRegularResponse_pair (resp : A2AResponse) :
    (MainDialog.handleRegularResponse resp).1.map Directive.dkind
      = (DialogBot.handleRegularResponse resp).1.map Directive.dkind ∧
    (MainDialog.handleRegularResponse resp).2
      = (DialogBot.handleRegularResponse resp).2 := by
  cases resp with
  | error m => exact ⟨rfl, rfl⟩
  | result r =>
    cases r with
    | message parts =>
      refine ⟨?_, rfl⟩
      dsimp only [MainDialog.handleRegularResponse, DialogBot.handleRegularResponse]
      simp [Directive.dkind]
    | other k => exact ⟨rfl, rfl⟩
    | task id status artifacts =>
      refine ⟨?_, rfl⟩
      dsimp only [MainDialog.handleRegularResponse, DialogBot.handleRegularResponse]
      simp only [List.map_append, List.map_cons, Directive.dkind]
      refine congrArg₂ (· ++ ·) ?_ ?_
      · refine congrArg₂ (· ++ ·) ?_ ?_
        · refine congrArg (DKind.typing :: DKind.send :: ·) ?_
          cases artifacts
          · rfl
          · dsimp only
            split
            · exact displayTaskArtifacts_kinds _
            · rfl
        · cases status.message with
          | none => rfl
          | some m =>
            dsimp only
            split <;> rfl
      · split <;> rfl

end A2A

namespace A2A

/-- C1 counterexample: on `Message{parts:[Text "a", Text "b"]}` the code
accumulates only the first part's text and bumps `updateCount` once, not once
per Text part as the claim states. -/
theorem c1_counterexample :
    (DialogBot.loopState (fun _ => false)
        [.ev (.message (some [.text "a", .text "b"]))]).accumulatedText = "a" ∧
    (DialogBot.loopState (fun _ => false)
        [.ev (.message (some [.text "a", .text "b"]))]).updateCount = 1 ∧
    ¬ ((DialogBot.loopState (fun _ => false)
        [.ev (.message (some [.text "a", .text "b"]))]).accumulatedText = "ab") := by
  refine ⟨rfl, rfl, by decide⟩

/-- C1 amended: a Message event reads only `parts[0]`; when that first part
carries non-empty text, exactly that text is appended and `updateCount` is
incremented exactly once, and all remaining parts are ignored. -/
theorem c1_first_part_only (updFail : Nat → Bool) (st : RState) (p : Part)
    (rest : List Part) (h : p.textField ≠ "") :
    DialogBot.stepEvent updFail st (.message (some (p :: rest)))
      = DialogBot.stepEvent updFail st (.message (some [p])) ∧
    (DialogBot.stepEvent updFail st (.message (some (p :: rest)))).1.accumulatedText
      = st.accumulatedText ++ p.textField ∧
    (DialogBot.stepEvent updFail st (.message (some (p :: rest)))).1.updateCount
      = st.updateCount + 1 := by
  have h' : firstPartText (some (p :: rest)) ≠ "" := h
  refine ⟨rfl, ?_, ?_⟩
  · dsimp only [DialogBot.stepEvent]
    rw [if_pos h']
    exact (DialogBot.contribute_fields updFail _ _).1
  · dsimp only [DialogBot.stepEvent]
    rw [if_pos h']
    exact (DialogBot.contribute_fields updFail _ _).2.1

/-- C1 witness: the amended theorem applied at a concrete two-part message. -/
theorem c1_first_part_only_witness :
    DialogBot.stepEvent (fun _ => false) initState
        (.message (some [Part.text "hi", Part.text "zz"]))
      = DialogBot.stepEvent (fun _ => false) initState
          (.message (some [Part.text "hi"])) ∧
    (DialogBot.stepEvent (fun _ => false) initState
        (.message (some [Part.text "hi", Part.text "zz"]))).1.accumulatedText
      = initState.accumulatedText ++ (Part.text "hi").textField ∧
    (DialogBot.stepEvent (fun _ => false) initState
        (.message (some [Part.text "hi", Part.text "zz"]))).1.updateCount
      = initState.updateCount + 1 :=
  c1_first_part_only (fun _ => false) initState (Part.text "hi") [Part.text "zz"]
    (by decide)

end A2A

namespace A2A

/-- C2 counterexample: after a 401 during routing the turn-scoped token and
client are cleared and the dialog flow runs in the same turn — but the copy
persisted in conversation state is not cleared: `persistA2AState` skips
writing when the token is null, and the run's restore step even re-populates
the turn state from the stale stored copy. -/
theorem c2_counterexample :
    (DialogBot.handleMessage "hello" ⟨some "tok", true, some "https://agent"⟩
        (some "401 Unauthorized - Authentication required")).dialogRun = true ∧
    (DialogBot.handleMessage "hello" ⟨some "tok", true, some "https://agent"⟩
        (some "401 Unauthorized - Authentication required")).turnState.accessToken
      = none ∧
    (MainDialog.runA2AStateBracket
        (DialogBot.handleMessage "hello" ⟨some "tok", true, some "https://agent"⟩
          (some "401 Unauthorized - Authentication required")).turnState
        ⟨some "tok", some "https://agent"⟩).2
      = ⟨some "tok", some "https://agent"⟩ ∧
    (MainDialog.runA2AStateBracket
        (DialogBot.handleMessage "hello" ⟨some "tok", true, some "https://agent"⟩
          (some "401 Unauthorized - Authentication required")).turnState
        ⟨some "tok", some "https://agent"⟩).1.accessToken = some "tok" := by
  refine ⟨?_, ?_, ?_, ?_⟩ <;> decide

/-- C2 amended: on an auth error the turn-scoped token and client handle are
cleared and the dialog flow is re-entered in the same turn; a non-auth error
is reported and leaves the turn state intact; but persisting with a cleared
token leaves the stored conversation-state session untouched. -/
theorem c2_auth_error_behaviour (text : String) (ts : TurnState) (e : String)
    (h1 : DialogBot.dialogCommands.contains (jsToLower (jsTrim text)) = false)
    (h2 : truthy ts.accessToken = true) (h3 : ts.a2aClient = true) :
    (DialogBot.isAuthErrorMsg e = true →
      DialogBot.handleMessage text ts (some e)
        = ⟨{ ts with accessToken := none, a2aClient := false }, true, none⟩) ∧
    (DialogBot.isAuthErrorMsg e = false →
      DialogBot.handleMessage text ts (some e)
        = ⟨ts, false, some ("⚠️ Error communicating with agent: " ++ e)⟩) ∧
    (∀ stored : A2AStoredState,
      MainDialog.persistA2AState { ts with accessToken := none, a2aClient := false }
          stored
        = stored) := by
  have h1m : ¬ (jsToLower (jsTrim text) ∈ DialogBot.dialogCommands) := by
    simpa using h1
  refine ⟨?_, ?_, ?_⟩
  · intro ha
    simp [DialogBot.handleMessage, h1m, h2, h3, ha]
  · intro ha
    simp [DialogBot.handleMessage, h1m, h2, h3, ha]
  · intro stored
    simp [MainDialog.persistA2AState, truthy]

/-- C2 witness: the amended theorem applied at a concrete 401. -/
theorem c2_auth_error_behaviour_witness :
    DialogBot.handleMessage "hello" ⟨some "tok", true, some "u"⟩ (some "x 401")
      = ⟨⟨none, false, some "u"⟩, true, none⟩ ∧
    MainDialog.persistA2AState ⟨none, false, some "u"⟩ ⟨some "tok", some "u"⟩
      = ⟨some "tok", some "u"⟩ := by
  have h := c2_auth_error_behaviour "hello" ⟨some "tok", true, some "u"⟩ "x 401"
    (by decide) (by decide) rfl
  exact ⟨h.1 (by decide), h.2.2 ⟨some "tok", some "u"⟩⟩

/-- C3 counterexample: a second Task event carrying artifacts replaces the
accumulated list (discarding the first task's artifact), and an
ArtifactUpdate whose artifact has no `parts` field is not appended at all. -/
theorem c3_counterexample :
    (DialogBot.loopState (fun _ => false)
        [.ev (.task "t1" ⟨"working", none⟩ (some [⟨"a1", none, some []⟩])),
         .ev (.task "t2" ⟨"working", none⟩ (some [⟨"a2", none, some []⟩]))]).lastArtifacts
      = [⟨"a2", none, some []⟩] ∧
    (DialogBot.loopState (fun _ => false)
        [.ev (.artifactUpdate ⟨"a3", none, none⟩)]).lastArtifacts = [] :=
  ⟨rfl, rfl⟩

/-- C3 amended: a Task event with a non-empty artifacts list REPLACES the
accumulated sequence; an ArtifactUpdate appends its artifact exactly when the
artifact has a `parts` field (an empty parts list still appends), and is
dropped when `parts` is absent. -/
theorem c3_artifact_sequence (updFail : Nat → Bool) (st : RState) (id : String)
    (status : TaskStatus) (arts : List Artifact) (a : Artifact) (ps : List Part)
    (b : Artifact) (hArts : arts ≠ []) (hPs : a.parts = some ps)
    (hB : b.parts = none) :
    (DialogBot.stepEvent updFail st (.task id status (some arts))).1.lastArtifacts
      = arts ∧
    (DialogBot.stepEvent updFail st (.artifactUpdate a)).1.lastArtifacts
      = st.lastArtifacts ++ [a] ∧
    (DialogBot.stepEvent updFail st (.artifactUpdate b)).1.lastArtifacts
      = st.lastArtifacts := by
  refine ⟨?_, ?_, ?_⟩
  · dsimp only [DialogBot.stepEvent]
    rw [if_pos (List.length_pos.mpr hArts)]
  · obtain ⟨aid, anm, aparts⟩ := a
    dsimp only [Artifact.parts] at hPs
    subst hPs
    dsimp only [DialogBot.stepEvent]
    rw [DialogBot.processArtifactParts_lastArtifacts]
  · obtain ⟨bid, bnm, bparts⟩ := b
    dsimp only [Artifact.parts] at hB
    subst hB
    rfl

/-- C3 witness: the amended theorem applied at concrete artifacts. -/
theorem c3_artifact_sequence_witness :
    (DialogBot.stepEvent (fun _ => false) initState
        (.task "t" ⟨"working", none⟩ (some [⟨"a1", none, none⟩]))).1.lastArtifacts
      = [⟨"a1", none, none⟩] ∧
    (DialogBot.stepEvent (fun _ => false) initState
        (.artifactUpdate ⟨"a2", none, some []⟩)).1.lastArtifacts
      = initState.lastArtifacts ++ [⟨"a2", none, some []⟩] ∧
    (DialogBot.stepEvent (fun _ => false) initState
        (.artifactUpdate ⟨"a3", none, none⟩)).1.lastArtifacts
      = initState.lastArtifacts :=
  c3_artifact_sequence (fun _ => false) initState "t" ⟨"working", none⟩
    [⟨"a1", none, none⟩] ⟨"a2", none, some []⟩ [] ⟨"a3", none, none⟩
    (by decide) rfl rfl

/-- C4 counterexample: on the stream `StatusUpdate{failed}` then a timer tick,
a further liveness (typing) signal is emitted after the terminal `failed`
status: only `completed` stops the typing loop. -/
theorem c4_counterexample :
    DialogBot.reconcile (fun _ => false)
        [.ev (.statusUpdate ⟨"failed", none⟩), .tick]
      = [Directive.typing, Directive.typing] := rfl

/-- C4 amended: a StatusUpdate with state `completed` (and only that state)
sets the completion flag and clears the interval; the step emits no typing
itself, and no liveness signal is emitted anywhere in the rest of the
reconciliation, finalization included. -/
theorem c4_completed_stops_liveness (updFail : Nat → Bool) (st : RState)
    (status : TaskStatus) (h : status.state = "completed")
    (rest : List StreamItem) :
    (DialogBot.stepEvent updFail st (.statusUpdate status)).1.isCompleted = true ∧
    (DialogBot.stepEvent updFail st (.statusUpdate status)).1.intervalActive = false ∧
    countTyping (DialogBot.stepEvent updFail st (.statusUpdate status)).2 = 0 ∧
    countTyping (DialogBot.runLoop updFail
        (DialogBot.stepEvent updFail st (.statusUpdate status)).1 rest).2 = 0 ∧
    countTyping (DialogBot.finalize updFail
        (DialogBot.runLoop updFail
          (DialogBot.stepEvent updFail st (.statusUpdate status)).1 rest).1).2 = 0 := by
  have hb : (status.state == "completed") = true := by rw [h]; rfl
  have flags : (DialogBot.stepEvent updFail st (.statusUpdate status)).1.isCompleted
        = true ∧
      (DialogBot.stepEvent updFail st (.statusUpdate status)).1.intervalActive
        = false := by
    dsimp only [DialogBot.stepEvent]
    cases st.currentTask with
    | none =>
      dsimp only
      rw [if_pos hb]
      split <;> exact ⟨rfl, rfl⟩
    | some ct =>
      dsimp only
      rw [if_pos hb]
      split <;> exact ⟨rfl, rfl⟩
  exact ⟨flags.1, flags.2, DialogBot.stepEvent_no_typing updFail st _,
    DialogBot.runLoop_no_typing_after_stop updFail rest _ flags.1 flags.2,
    DialogBot.finalize_no_typing updFail _⟩

/-- C4 witness: the amended theorem applied at a concrete completed status. -/
theorem c4_completed_stops_liveness_witness :
    (DialogBot.stepEvent (fun _ => false) initState
        (.statusUpdate ⟨"completed", none⟩)).1.isCompleted = true ∧
    (DialogBot.stepEvent (fun _ => false) initState
        (.statusUpdate ⟨"completed", none⟩)).1.intervalActive = false ∧
    countTyping (DialogBot.stepEvent (fun _ => false) initState
        (.statusUpdate ⟨"completed", none⟩)).2 = 0 ∧
    countTyping (DialogBot.runLoop (fun _ => false)
        (DialogBot.stepEvent (fun _ => false) initState
          (.statusUpdate ⟨"completed", none⟩)).1 [.tick]).2 = 0 ∧
    countTyping (DialogBot.finalize (fun _ => false)
        (DialogBot.runLoop (fun _ => false)
          (DialogBot.stepEvent (fun _ => false) initState
            (.statusUpdate ⟨"completed", none⟩)).1 [.tick]).1).2 = 0 :=
  c4_completed_stops_liveness (fun _ => false) initState ⟨"completed", none⟩ rfl [.tick]

end A2A

namespace A2A

/-- C5 counterexample: with every update-in-place failing, the stream of five
text messages produces two failed update attempts (one mid-stream, one at
finalization) but only one substitute new message — the mid-stream failure is
merely swallowed, so substitutes are not one-per-failed-update. -/
theorem c5_counterexample :
    countFailedUpdate (DialogBot.reconcile (fun _ => true)
        (List.replicate 5 (StreamItem.ev (.message (some [.text "a"]))))) = 2 ∧
    countSend (DialogBot.reconcile (fun _ => true)
        (List.replicate 5 (StreamItem.ev (.message (some [.text "a"]))))) = 1 :=
  ⟨rfl, rfl⟩

/-- C5 amended: for any stream whose accumulated text ends non-empty, exactly
one display message is created, and exactly one substitute new message is
sent when (and only when) the finalization update attempt fails; mid-stream
update failures produce no substitute, and no update failure is ever
propagated. -/
theorem c5_single_create (updFail : Nat → Bool) (items : List StreamItem)
    (h : (DialogBot.loopState updFail items).accumulatedText ≠ "") :
    countCreate (DialogBot.reconcile updFail items) = 1 ∧
    countSend (DialogBot.reconcile updFail items)
      = (if updFail (DialogBot.loopState updFail items).updSeq then 1 else 0) := by
  have hM : (DialogBot.loopState updFail items).messageActivity = true :=
    DialogBot.runLoop_text_implies_handle updFail items initState
      (fun hx => absurd rfl hx) h
  have hc := DialogBot.runLoop_countCreate updFail items initState
  have hns := DialogBot.runLoop_no_send updFail items initState
  have hM' : ((DialogBot.runLoop updFail initState items).1).messageActivity = true := hM
  have hMA : (if (DialogBot.runLoop updFail initState items).1.messageActivity = true
      then 1 else 0) = 1 := by rw [hM']; rfl
  have h0 : (if initState.messageActivity = true then 1 else 0) = 0 := rfl
  have hfin := DialogBot.finalize_counts_of_text updFail
      (DialogBot.finalState updFail items) h hM
  have hSeq : (DialogBot.finalState updFail items).updSeq
      = (DialogBot.loopState updFail items).updSeq := rfl
  rw [hSeq] at hfin
  rw [DialogBot.reconcile_unfold]
  constructor
  · simp only [countCreate_cons, countCreate_append, Directive.isCreate,
      Bool.false_eq_true, if_false, hfin.1]
    omega
  · simp only [countSend_cons, countSend_append, Directive.isSend,
      Bool.false_eq_true, if_false, hns, hfin.2]
    omega

/-- C5 witness: the amended theorem applied at a single text message with a
succeeding display surface. -/
theorem c5_single_create_witness :
    countCreate (DialogBot.reconcile (fun _ => false)
        [.ev (.message (some [.text "x"]))]) = 1 ∧
    countSend (DialogBot.reconcile (fun _ => false)
        [.ev (.message (some [.text "x"]))])
      = (if (fun _ => false : Nat → Bool)
            (DialogBot.loopState (fun _ => false)
              [.ev (.message (some [.text "x"]))]).updSeq then 1 else 0) :=
  c5_single_create (fun _ => false) [.ev (.message (some [.text "x"]))] (by decide)

/-- C6 counterexample: five text contributions followed by a completed status
yield three update-in-place invocations (the periodic update at count 5, the
forced update on the terminal status, and the finalization update), while the
claimed bound ceil(5/5) + 1 is 2. -/
theorem c6_counterexample :
    countUpdate (DialogBot.reconcile (fun _ => false)
        (List.replicate 5 (StreamItem.ev (.message (some [.text "a"])))
          ++ [.ev (.statusUpdate ⟨"completed", none⟩)])) = 3 ∧
    (DialogBot.loopState (fun _ => false)
        (List.replicate 5 (StreamItem.ev (.message (some [.text "a"])))
          ++ [.ev (.statusUpdate ⟨"completed", none⟩)])).updateCount = 5 ∧
    ¬ (3 ≤ (5 + 5 - 1) / 5 + 1) := by
  refine ⟨rfl, rfl, by decide⟩

/-- C6 amended: the number of update-in-place invocations of a reconciliation
is at most floor(updateCount / 5) periodic updates, plus one forced update per
completed status-update event, plus one finalization update. -/
theorem c6_update_bound (updFail : Nat → Bool) (items : List StreamItem) :
    countUpdate (DialogBot.reconcile updFail items)
      ≤ (DialogBot.loopState updFail items).updateCount / 5
        + countCompletedStatus items + 1 := by
  have h1 := DialogBot.runLoop_update_bound updFail items initState
  have h2 := DialogBot.finalize_countUpdate_le_one updFail
      (DialogBot.finalState updFail items)
  have h4 : initState.updateCount = 0 := rfl
  rw [DialogBot.reconcile_unfold]
  unfold DialogBot.loopState
  simp only [countUpdate_cons, countUpdate_append, Directive.isUpdate,
    Bool.false_eq_true, if_false]
  omega

/-- C7 confirmed: when the stream raises after the listed items, the
synchronous fallback is invoked exactly once with the same outbound message,
the fallback's own failure is what propagates (no retry), the trace is the
aborted loop trace followed by the fallback's trace with no finalization, and
without a stream error the fallback is never invoked. -/
theorem c7_stream_failure_fallback (updFail : Nat → Bool) (msg : String)
    (items : List StreamItem) (e : String) (sendOnce : String → A2AResponse) :
    (DialogBot.handleStreamingResponse updFail msg items (some e) sendOnce).2.1
      = [msg] ∧
    (DialogBot.handleStreamingResponse updFail msg items (some e) sendOnce).2.2
      = (DialogBot.handleRegularResponse (sendOnce msg)).2 ∧
    (DialogBot.handleStreamingResponse updFail msg items (some e) sendOnce).1
      = Directive.typing :: (DialogBot.runLoop updFail initState items).2
        ++ (DialogBot.handleRegularResponse (sendOnce msg)).1 ∧
    (DialogBot.handleStreamingResponse updFail msg items none sendOnce).2.1 = [] :=
  ⟨rfl, rfl, rfl, rfl⟩

end A2A

namespace A2A

/-- C8 counterexample: the two implementations already disagree on a single
text message: dialogBot.js prefixes the created message with the robot emoji
while mainDialog.js prefixes it with the mojibake of that emoji that its file
actually contains, so the created-message texts differ. -/
theorem c8_counterexample :
    ¬ (DialogBot.reconcile (fun _ => false) [.ev (.message (some [.text "hi"]))]
        = MainDialog.reconcile (fun _ => false) [.ev (.message (some [.text "hi"]))]) := by
  decide

/-- C8 amended: the two implementations are equivalent up to rendered string
constants: for every interleaved stream, failure oracle and fallback
transport, they emit the same sequence of directive shapes (typing, create,
update with the same success flag, send), invoke the fallback on the same
messages, and propagate the same error. -/
theorem c8_kind_equivalence (updFail : Nat → Bool) (msg : String)
    (items : List StreamItem) (streamErr : Option String)
    (sendOnce : String → A2AResponse) :
    (MainDialog.handleStreamingResponse updFail msg items streamErr sendOnce).1.map
        Directive.dkind
      = (DialogBot.handleStreamingResponse updFail msg items streamErr sendOnce).1.map
        Directive.dkind ∧
    (MainDialog.handleStreamingResponse updFail msg items streamErr sendOnce).2
      = (DialogBot.handleStreamingResponse updFail msg items streamErr sendOnce).2 := by
  cases streamErr with
  | none =>
    unfold MainDialog.handleStreamingResponse DialogBot.handleStreamingResponse
    dsimp only
    refine ⟨?_, rfl⟩
    simp only [List.map_cons, List.map_append]
    rw [(runLoop_pair updFail items initState).2, (runLoop_pair updFail items initState).1,
      finalize_pair]
  | some err =>
    unfold MainDialog.handleStreamingResponse DialogBot.handleStreamingResponse
    dsimp only
    refine ⟨?_, ?_⟩
    · simp only [List.map_cons, List.map_append]
      rw [(runLoop_pair updFail items initState).2,
        (handleRegularResponse_pair (sendOnce msg)).1]
    · rw [(handleRegularResponse_pair (sendOnce msg)).2]

/-- C9 counterexample: a stream consisting of one Message whose only part is
empty text does not behave like an empty stream — the empty stream emits the
no-response notice while the empty-text stream suppresses it (receivedEvents
is set) — and an ArtifactUpdate whose only part is empty text still appends
its artifact to the reconciliation state. -/
theorem c9_counterexample :
    DialogBot.reconcile (fun _ => false) [.ev (.message (some [.text ""]))]
      = [Directive.typing] ∧
    DialogBot.reconcile (fun _ => false) []
      = [Directive.typing, Directive.send "⚠️ No response received from agent."] ∧
    (DialogBot.loopState (fun _ => false)
        [.ev (.artifactUpdate ⟨"a1", none, some [.text ""]⟩)]).lastArtifacts
      = [⟨"a1", none, some [.text ""]⟩] :=
  ⟨rfl, rfl, rfl⟩

/-- C9 amended: an empty-text part contributes nothing to the accumulated
text, the update counter or the display; but the event is still recorded:
`receivedEvents` is set (suppressing the no-response notice), and an
ArtifactUpdate whose parts are all non-contributing still appends its
artifact. -/
theorem c9_empty_text_effects (updFail : Nat → Bool) (st : RState) (p : Part)
    (rest : List Part) (a : Artifact) (ps : List Part)
    (hp : p.textField = "")
    (hps : ∀ q ∈ ps, q.isContributingText = false)
    (ha : a.parts = some ps) :
    DialogBot.stepEvent updFail st (.message (some (p :: rest)))
      = ({ st with receivedEvents := true }, []) ∧
    DialogBot.stepEvent updFail st (.artifactUpdate a)
      = ({ st with receivedEvents := true, lastArtifacts := st.lastArtifacts ++ [a] },
         []) := by
  constructor
  · have h' : ¬ (firstPartText (some (p :: rest)) ≠ "") := fun hne => hne hp
    dsimp only [DialogBot.stepEvent]
    rw [if_neg h']
  · obtain ⟨aid, anm, aparts⟩ := a
    dsimp only [Artifact.parts] at ha
    subst ha
    dsimp only [DialogBot.stepEvent]
    rw [DialogBot.processArtifactParts_noncontributing updFail ps _ hps]

/-- C9 witness: the amended theorem applied at concrete empty-text parts. -/
theorem c9_empty_text_effects_witness :
    DialogBot.stepEvent (fun _ => false) initState
        (.message (some [Part.text ""]))
      = ({ initState with receivedEvents := true }, []) ∧
    DialogBot.stepEvent (fun _ => false) initState
        (.artifactUpdate ⟨"a1", none, some [Part.text ""]⟩)
      = ({ initState with receivedEvents := true, lastArtifacts := initState.lastArtifacts ++ [⟨"a1", none, some [Part.text ""]⟩] },
         []) :=
  c9_empty_text_effects (fun _ => false) initState (Part.text "") []
    ⟨"a1", none, some [Part.text ""]⟩ [Part.text ""] rfl (by decide) rfl

/-- C10 confirmed: in the synchronous fallback, a successful transport result
whose kind is neither message nor task renders nothing after the initial
typing indicator, and no error is thrown, in both implementations. -/
theorem c10_unknown_result_kind (k : String) :
    DialogBot.handleRegularResponse (A2AResponse.result (AgentResult.other k))
      = ([Directive.typing], none) ∧
    MainDialog.handleRegularResponse (A2AResponse.result (AgentResult.other k))
      = ([Directive.typing], none) :=
  ⟨rfl, rfl⟩

end A2A
